import Mathlib

/-!
Shallow embedding of `src/app.py` (cchensh/searchapp): a filter-driven
search backend over a fixed in-memory catalog of songs, plus an
entity-details event handler.

Inbound function payloads are deserialized JSON, so selection values are
modelled by the JSON-like value type `JVal`; Python runtime errors that the
handlers can raise (`KeyError`, `AttributeError`, `TypeError`) are modelled
by `PyErr`, and fallible Python expressions return `Except PyErr`.
Python dict literals whose exact key set matters (the projected search
results of line 204, the flexpane payload) are modelled as ordered
key-value lists, so that "key absent" is distinguishable from "key present
with a null/empty value".
-/

/-- A JSON-like Python value, as delivered by the transport layer. -/
inductive JVal where
  | null : JVal
  | bool : Bool → JVal
  | num : Int → JVal
  | str : String → JVal
  | list : List JVal → JVal
  | dict : List (String × JVal) → JVal

/-- A Python dict with string keys, as an ordered key-value list. -/
abbrev PyDict := List (String × JVal)

/-- The Python runtime errors the handlers can raise. -/
inductive PyErr where
  | keyError : String → PyErr
  | attributeError : PyErr
  | typeError : PyErr
  | apiError : PyErr
deriving DecidableEq

/-- Python truthiness of a `JVal` (`if v:`). -/
def truthy : JVal → Bool
  | .null => false
  | .bool b => b
  | .num n => n != 0
  | .str s => s != ""
  | .list l => !l.isEmpty
  | .dict d => !d.isEmpty

/-- Python `v.get(key, default)`: defined on dicts (first binding wins,
though Python dicts cannot repeat keys), an `AttributeError` on any other
value. -/
def pyGet (v : JVal) (key : String) (dflt : JVal) : Except PyErr JVal :=
  match v with
  | .dict d => .ok ((d.lookup key).getD dflt)
  | _ => .error .attributeError

/-- Whether a `JVal` equals the Python string `s` (`elem == s`): only a
string with the same characters does; comparisons across types are `False`
and never raise. -/
def jIsStr (s : String) : JVal → Bool
  | .str t => t == s
  | _ => false

/-- Whether `needle` occurs as a contiguous run inside `hay` (Python
substring membership on character lists). -/
def charsContain (needle : List Char) : List Char → Bool
  | [] => needle.isEmpty
  | c :: t => needle.isPrefixOf (c :: t) || charsContain needle t

/-- Python `s in v` for a string `s`: substring test on a string, element
equality on a list, key membership on a dict, and a `TypeError` on any
non-container value. -/
def pyIn (s : String) : JVal → Except PyErr Bool
  | .str t => .ok (charsContain s.data t.data)
  | .list l => .ok (l.any (jIsStr s))
  | .dict d => .ok (d.any (fun kv => kv.1 == s))
  | _ => .error .typeError

/-- A catalog entity (`Song` TypedDict, src/app.py lines 46-53; `content`
is a `NotRequired` key, modelled as an `Option`). -/
structure Song where
  id : String
  title : String
  description : String
  link : String
  band : String
  is_single : Bool
  date_updated : String
  content : Option String
deriving DecidableEq

/-- The seeded catalog `SONGS` (src/app.py lines 80-174). -/
def SONGS : List Song := [
  { id := "pf-001",
    title := "Comfortably Numb",
    description := "From the album 'The Wall' (1979), features one of David Gilmour's most famous guitar solos",
    link := "https://example.com/pinkfloyd/comfortably-numb",
    band := "Pink Floyd",
    is_single := false,
    date_updated := "2023-01-01",
    content := some "Comfortably Numb is a song by the English rock band Pink Floyd, released on their eleventh studio album, The Wall (1979). It was released as a single in 1980, with \"Hey You\" as the B-side.The lyrics were written by the bassist, Roger Waters, who recalled his experience of being injected with tranquilisers before a performance in 1977; the music was composed by the band's guitarist, David Gilmour. Waters and Gilmour argued during the recording, with Waters seeking an orchestral arrangement and Gilmour preferring a more stripped-down arrangement. They compromised by combining both versions, and Gilmour said the song was the last time he and Waters were able to work together constructively." },
  { id := "pf-002",
    title := "Wish You Were Here",
    description := "Title track from the 1975 album, written as a tribute to former band member Syd Barrett",
    link := "https://example.com/pinkfloyd/wish-you-were-here",
    band := "Pink Floyd",
    is_single := false,
    date_updated := "2023-02-01",
    content := none },
  { id := "pf-003",
    title := "Time",
    description := "From the album 'The Dark Side of the Moon' (1973), known for its iconic clock sound effects",
    link := "https://example.com/pinkfloyd/time",
    band := "Pink Floyd",
    is_single := false,
    date_updated := "2023-03-01",
    content := none },
  { id := "rs-001",
    title := "Paint It Black",
    description := "Released as a single in 1966, reaching number one on both UK and US charts",
    link := "https://example.com/rollingstones/paint-it-black",
    band := "Rolling Stones",
    is_single := true,
    date_updated := "2023-04-15",
    content := none },
  { id := "rs-002",
    title := "Sympathy for the Devil",
    description := "From the album 'Beggars Banquet' (1968), one of their most controversial songs",
    link := "https://example.com/rollingstones/sympathy-for-the-devil",
    band := "Rolling Stones",
    is_single := false,
    date_updated := "2023-05-20",
    content := none },
  { id := "beatles-001",
    title := "Hey Jude",
    description := "Released as a single in 1968, became one of their biggest hits",
    link := "https://example.com/beatles/hey-jude",
    band := "The Beatles",
    is_single := true,
    date_updated := "2023-06-10",
    content := none },
  { id := "beatles-002",
    title := "Let It Be",
    description := "From the album 'Let It Be' (1970), one of their final singles",
    link := "https://example.com/beatles/let-it-be",
    band := "The Beatles",
    is_single := true,
    date_updated := "2023-07-05",
    content := none },
  { id := "lz-001",
    title := "Stairway to Heaven",
    description := "From the album 'Led Zeppelin IV' (1971), often cited as one of greatest rock songs of all time",
    link := "https://example.com/ledzeppelin/stairway-to-heaven",
    band := "Led Zeppelin",
    is_single := false,
    date_updated := "2023-08-12",
    content := none },
  { id := "queen-001",
    title := "Bohemian Rhapsody",
    description := "From the album 'A Night at the Opera' (1975), pioneering song with no chorus",
    link := "https://example.com/queen/bohemian-rhapsody",
    band := "Queen",
    is_single := true,
    date_updated := "2023-09-18",
    content := some "Bohemian Rhapsody can refer to two distinct entities: the iconic song by the British rock band Queen, and the 2018 biographical film about the band and its lead singer, Freddie Mercury." },
  { id := "acdc-001",
    title := "Back in Black",
    description := "Title track from the 1980 album, written as a tribute to deceased singer Bon Scott",
    link := "https://example.com/acdc/back-in-black",
    band := "AC/DC",
    is_single := true,
    date_updated := "2023-10-25",
    content := some "Back in Black is the seventh studio album by Australian rock band AC/DC, released on 25 July 1980, by Albert Productions and Atlantic Records. It was the band's first album to feature Brian Johnson as lead singer, following the death of their previous vocalist Bon Scott. After the commercial breakthrough of their 1979 album Highway to Hell, AC/DC was planning to record a follow-up, but in February 1980, Scott died from alcohol poisoning after a drinking binge. The remaining members of the group considered disbanding, but ultimately chose to continue on and recruited Johnson, who had previously been the vocalist for Geordie." }
]

/-- The result dict literal built for one song (src/app.py line 204): keys
in insertion order, with `content` spread in only when the song carries it.
Note the literal emits neither an `id` key nor an `entity_reference` key;
the reference is stored under `external_ref`. -/
def projectSong (song : Song) : PyDict :=
  [("title", JVal.str song.title),
   ("description", JVal.str song.description),
   ("link", JVal.str song.link),
   ("date_updated", JVal.str song.date_updated),
   ("external_ref", JVal.dict [("id", JVal.str song.id)])] ++
  (match song.content with
   | some c => [("content", JVal.str c)]
   | none => [])

/-- Observable outcome of one invocation of a Bolt function handler: whether
`ack()` fired, the outputs passed to `complete(...)` when it succeeded, and
the exception the handler raised to the platform, if any. -/
structure SearchOutcome where
  acked : Bool
  completed : Option (List PyDict)
  exn : Option PyErr

/-- The bands narrowing of src/app.py line 201
(`[song for song in filtered_songs if song["band"] in bands_filter]`):
Python evaluates the membership test left to right and the first
non-container `bands_filter` aborts the comprehension with a `TypeError`. -/
def pyFilterBands (bands_filter : JVal) : List Song → Except PyErr (List Song)
  | [] => .ok []
  | song :: rest =>
    match pyIn song.band bands_filter with
    | .error e => .error e
    | .ok keep =>
      match pyFilterBands bands_filter rest with
      | .error e => .error e
      | .ok tail => .ok (if keep then song :: tail else tail)

/-- The body of the `try` block of `handle_search_step_event`
(src/app.py lines 194-209): sequential predicate narrowing over `SONGS`,
projection, then `complete`. `completeRaises` models an exception thrown by
the outbound `complete(...)` call itself. -/
def searchTryBody (singles_filter bands_filter : JVal) (completeRaises : Bool) :
    Except PyErr (List PyDict) :=
  let filtered_songs := SONGS
  let filtered_songs :=
    if truthy singles_filter then filtered_songs.filter (fun song => song.is_single)
    else filtered_songs
  match (if truthy bands_filter then pyFilterBands bands_filter filtered_songs
         else .ok filtered_songs) with
  | .error e => .error e
  | .ok filtered_songs =>
    let results := filtered_songs.map projectSong
    if completeRaises then .error .apiError else .ok results

/-- `handle_search_step_event` (src/app.py lines 184-211). The selection is
read from `inputs["filters"]` at lines 191-192, BEFORE the `try` block whose
`finally` clause sends `ack()`; a failure there escapes without
acknowledgment. Inside the `try`, `ack()` fires on every exit path. -/
def handle_search_step_event (inputs : PyDict) (completeRaises : Bool) : SearchOutcome :=
  match inputs.lookup "filters" with
  | none => { acked := false, completed := none, exn := some (.keyError "filters") }
  | some filtersVal =>
    match pyGet filtersVal "is_single" (JVal.bool false) with
    | .error e => { acked := false, completed := none, exn := some e }
    | .ok singles_filter =>
      match pyGet filtersVal "bands" (JVal.list []) with
      | .error e => { acked := false, completed := none, exn := some e }
      | .ok bands_filter =>
        match searchTryBody singles_filter bands_filter completeRaises with
        | .ok results => { acked := true, completed := some results, exn := none }
        | .error e => { acked := true, completed := none, exn := some e }

/-- The `FilterType` enum (src/app.py lines 17-19). -/
inductive FilterType where
  | MULTI_SELECT : FilterType
  | TOGGLE : FilterType
deriving DecidableEq

/-- `.value` of a `FilterType` member. -/
def FilterType.value : FilterType → String
  | .MULTI_SELECT => "multi_select"
  | .TOGGLE => "toggle"

/-- One selectable option of a MultiSelect filter (`FilterOptions`
TypedDict, src/app.py lines 35-37). -/
structure FilterOptions where
  name : String
  value : String
deriving DecidableEq

/-- One filter definition (`SearchFilter` TypedDict, src/app.py lines
40-44); the handler stores the enum member's `.value` string in `type`, and
the Toggle definition carries no `options` key. -/
structure SearchFilter where
  name : String
  display_name : String
  type : String
  options : Option (List FilterOptions)
deriving DecidableEq

/-- The distinct band values of a catalog
(`{song["band"] for song in SONGS}`, src/app.py line 222), as a
duplicate-free list. -/
def unique_bands (catalog : List Song) : List String :=
  (catalog.map Song.band).dedup

/-- The option list of the `bands` filter (src/app.py line 229): one
`{name, value}` pair per distinct band, both fields the band string. -/
def bandsOptions (catalog : List Song) : List FilterOptions :=
  (unique_bands catalog).map (fun band => { name := band, value := band })

/-- The filter registry (src/app.py lines 222-236): always the `bands`
MultiSelect definition followed by the `is_single` Toggle definition. Total
on every catalog, the empty one included. -/
def listFilters (catalog : List Song) : List SearchFilter :=
  [{ name := "bands",
     display_name := "Bands",
     type := FilterType.MULTI_SELECT.value,
     options := some (bandsOptions catalog) },
   { name := "is_single",
     display_name := "Singles Only",
     type := FilterType.TOGGLE.value,
     options := none }]

/-- Observable outcome of one invocation of the `filters` handler. -/
structure FiltersOutcome where
  acked : Bool
  completed : Option (List SearchFilter)
  exn : Option PyErr
deriving DecidableEq

/-- `handle_filters_step_event` (src/app.py lines 214-240): the whole body
sits inside the `try` block, so the `finally` clause sends `ack()` on every
exit path; only the outbound `complete(...)` call can raise. -/
def handle_filters_step_event (completeRaises : Bool) : FiltersOutcome :=
  match (if completeRaises then Except.error PyErr.apiError
         else Except.ok (listFilters SONGS) : Except PyErr (List SearchFilter)) with
  | .ok filters => { acked := true, completed := some filters, exn := none }
  | .error e => { acked := true, completed := none, exn := some e }

/-- The Query Engine on a well-typed `FilterSelection` (src/app.py lines
195-201, with `is_single` a boolean and `bands` a list of band strings):
start from the whole catalog, narrow by `is_single` when truthy, then by
band membership when the band list is non-empty. -/
def searchSongs (is_single : Bool) (bands : List String) (catalog : List Song) : List Song :=
  let filtered_songs := catalog
  let filtered_songs :=
    if is_single then filtered_songs.filter (fun song => song.is_single)
    else filtered_songs
  if !bands.isEmpty then filtered_songs.filter (fun song => bands.contains song.band)
  else filtered_songs

/-- `link` of an inbound `entity_details_requested` event (src/app.py lines
55-57). -/
structure LinkSharedEventLink where
  url : String
  domain : String
deriving DecidableEq

/-- `external_ref` of an inbound event (src/app.py lines 59-61). -/
structure ExternalRef where
  id : String
  type : Option String
deriving DecidableEq

/-- An inbound `entity_details_requested` event (src/app.py lines 64-69). -/
structure EntityDetailsRequestedEvent where
  user : String
  external_ref : ExternalRef
  trigger_id : String
  link : LinkSharedEventLink
deriving DecidableEq

/-- The payload `handle_flexpane_event` forwards to `entity.presentDetails`
(src/app.py lines 247-275): static placeholder content keyed by the event's
`trigger_id` and link url; the referenced entity id is never consulted and
the payload's `external_ref` is the constant `{"id": "123"}`. -/
def flexpane_payload (event : EntityDetailsRequestedEvent) : PyDict :=
  [("trigger_id", JVal.str event.trigger_id),
   ("metadata", JVal.dict
     [("entity_type", JVal.str "slack#/entities/item"),
      ("url", JVal.str event.link.url),
      ("external_ref", JVal.dict [("id", JVal.str "123")]),
      ("entity_payload", JVal.dict
        [("attributes", JVal.dict
          [("title", JVal.dict
            [("text", JVal.str "hello world"),
             ("edit", JVal.dict
               [("enabled", JVal.bool true),
                ("text", JVal.dict [("max_length", JVal.num 50)])])])]),
         ("custom_fields", JVal.list
           [JVal.dict
             [("key", JVal.str "description"),
              ("label", JVal.str "Description"),
              ("type", JVal.str "string"),
              ("value", JVal.str "This is a description")]])])])]

/-- Observable outcome of one invocation of the event handler: the payload
sent, the error message logged (if the outbound call failed), and the
exception propagated to the event source, if any. -/
structure FlexOutcome where
  payload : PyDict
  logged_error : Option String
  raised : Option PyErr

/-- `handle_flexpane_event` (src/app.py lines 242-283): builds the payload,
issues the outbound `entity.presentDetails` call (its outcome is the
`apiResult` argument), and catches every exception of that call with
`except Exception`, logging it instead of re-raising. -/
def handle_flexpane_event (event : EntityDetailsRequestedEvent)
    (apiResult : Except String Unit) : FlexOutcome :=
  let payload := flexpane_payload event
  match apiResult with
  | .ok _ => { payload := payload, logged_error := none, raised := none }
  | .error e =>
    { payload := payload,
      logged_error := some ("Error calling entity.presentDetails: " ++ e),
      raised := none }

/-! ## Helper lemmas -/

/-- Python membership of a string in a list of strings delivered as JSON:
`jIsStr`-search over the encoded list agrees with plain list membership. -/
theorem any_jIsStr_map_str (x : String) (bands : List String) :
    (bands.map JVal.str).any (jIsStr x) = bands.contains x := by
  induction bands with
  | nil => rfl
  | cons b bs ih =>
    by_cases hb : b = x
    · subst hb; simp [jIsStr]
    · simp [jIsStr, List.contains_cons, ih, hb, Ne.symm hb]

/-- The bands comprehension never raises on a JSON list and keeps exactly
the songs whose band matches some element. -/
theorem pyFilterBands_on_list (bl : List JVal) (l : List Song) :
    pyFilterBands (JVal.list bl) l =
      .ok (l.filter (fun song => bl.any (jIsStr song.band))) := by
  induction l with
  | nil => rfl
  | cons s t ih =>
    rw [pyFilterBands, ih]
    simp [pyIn, List.filter_cons]

/-- On a JSON-encoded list of band strings the comprehension computes the
plain `contains` filter. -/
theorem pyFilterBands_on_str_list (bands : List String) (l : List Song) :
    pyFilterBands (JVal.list (bands.map JVal.str)) l =
      .ok (l.filter (fun song => bands.contains song.band)) := by
  rw [pyFilterBands_on_list]
  congr 1
  exact List.filter_congr (fun song _ => any_jIsStr_map_str song.band bands)

/-- The `try` body on a well-typed selection computes the Query Engine
followed by the projection. -/
theorem searchTryBody_typed (b : Bool) (bands : List String) :
    searchTryBody (JVal.bool b) (JVal.list (bands.map JVal.str)) false =
      .ok ((searchSongs b bands SONGS).map projectSong) := by
  cases hbe : bands.isEmpty with
  | true => rw [List.isEmpty_iff.mp hbe]; cases b <;> rfl
  | false =>
    have hne : bands ≠ [] := by simp_all
    have hm : (bands.map JVal.str).isEmpty = false := by simp [hne]
    simp only [searchTryBody, searchSongs, truthy, hm, hbe, Bool.not_false, if_true,
      pyFilterBands_on_str_list]
    rfl

/-- The search handler on a well-typed selection acknowledges and completes
with the projected Query Engine output. -/
theorem handle_search_typed (b : Bool) (bands : List String) :
    handle_search_step_event
        [("filters", JVal.dict [("is_single", JVal.bool b), ("bands", JVal.list (bands.map JVal.str))])]
        false =
      { acked := true,
        completed := some ((searchSongs b bands SONGS).map projectSong),
        exn := none } := by
  simp [handle_search_step_event, pyGet, List.lookup, searchTryBody_typed]

/-- Unfolding of the search handler when the selection extraction
succeeds: the outcome is decided by the `try` body alone, and `ack` fires
either way. -/
theorem handle_search_on_dict (d : PyDict) (completeRaises : Bool) :
    handle_search_step_event [("filters", JVal.dict d)] completeRaises =
      match searchTryBody ((d.lookup "is_single").getD (JVal.bool false))
          ((d.lookup "bands").getD (JVal.list [])) completeRaises with
      | .ok results => { acked := true, completed := some results, exn := none }
      | .error e => { acked := true, completed := none, exn := some e } := rfl

/-- With a list-valued `bands` selection the `try` body never raises:
it returns the narrowed, projected catalog. -/
theorem searchTryBody_list_ok (sv : JVal) (bl : List JVal) :
    searchTryBody sv (JVal.list bl) false =
      .ok ((if truthy (JVal.list bl)
            then (if truthy sv then SONGS.filter (fun song => song.is_single)
                  else SONGS).filter (fun song => bl.any (jIsStr song.band))
            else (if truthy sv then SONGS.filter (fun song => song.is_single)
                  else SONGS)).map projectSong) := by
  simp only [searchTryBody, pyFilterBands_on_list]
  cases truthy (JVal.list bl) <;> rfl

/-! ## Claim theorems -/

/-- Claim C1: for every selection, the Query Engine returns exactly the
catalog entities satisfying the conjunction of the active filters — an
inactive filter (false flag, empty band set) imposes no constraint — in
catalog iteration order; the search handler completes with exactly their
projections; and the empty selection returns the whole catalog. -/
theorem search_returns_conjunction_in_catalog_order :
    (∀ (b : Bool) (bands : List String) (catalog : List Song),
      searchSongs b bands catalog =
        catalog.filter (fun song =>
          (!b || song.is_single) && (bands.isEmpty || bands.contains song.band)))
    ∧ (∀ (b : Bool) (bands : List String),
      (handle_search_step_event
          [("filters", JVal.dict
            [("is_single", JVal.bool b), ("bands", JVal.list (bands.map JVal.str))])]
          false).completed
        = some ((searchSongs b bands SONGS).map projectSong))
    ∧ ∀ catalog : List Song, searchSongs false [] catalog = catalog := by
  refine ⟨?_, ?_, ?_⟩
  · intro b bands catalog
    cases b with
    | false =>
      cases hbe : bands.isEmpty with
      | true =>
        have hnil : bands = [] := List.isEmpty_iff.mp hbe
        subst hnil
        simp [searchSongs]
      | false => simp [searchSongs, hbe]
    | true =>
      cases hbe : bands.isEmpty with
      | true =>
        have hnil : bands = [] := List.isEmpty_iff.mp hbe
        subst hnil
        simp [searchSongs]
      | false =>
        simp only [searchSongs, hbe, Bool.not_true, Bool.not_false, if_true, if_false,
          List.filter_filter, Bool.false_or]
        exact List.filter_congr (fun song _ => by
          cases hs : song.is_single <;> cases hc : bands.contains song.band <;>
            simp [hs, hc])
  · intro b bands
    rw [handle_search_typed]
  · intro catalog
    rfl

/-- Claim C10: monotonicity of the bands filter. For a fixed `is_single`
flag and non-empty band selections `S ⊆ T` (band sets arrive as lists in
the handler), every entity returned for `S` is returned for `T`, and the
`S`-results form a subsequence of the `T`-results. -/
theorem bands_filter_monotone :
    ∀ (b : Bool) (S T : List String), S ≠ [] → T ≠ [] → S ⊆ T →
      List.Sublist (searchSongs b S SONGS) (searchSongs b T SONGS)
      ∧ ∀ song ∈ searchSongs b S SONGS, song ∈ searchSongs b T SONGS := by
  intro b S T hS hT hsub
  have hSe : S.isEmpty = false := by simp [hS]
  have hTe : T.isEmpty = false := by simp [hT]
  have hsubl : List.Sublist (searchSongs b S SONGS) (searchSongs b T SONGS) := by
    simp only [searchSongs, hSe, hTe, Bool.not_false, if_true]
    refine List.monotone_filter_right _ (fun song h => ?_)
    exact List.elem_iff.mpr (hsub (List.elem_iff.mp h))
  exact ⟨hsubl, fun song h => hsubl.subset h⟩

/-- Claim C5, counterexample: a search invocation whose `inputs` carry no
`"filters"` key raises `KeyError` at line 191, before the `try`/`finally`
scope, and the acknowledgment is never sent — refuting "the acknowledgment
signal is sent on every exit path". -/
theorem search_missing_filters_key_skips_ack :
    handle_search_step_event [] false =
      { acked := false, completed := none, exn := some (PyErr.keyError "filters") } := rfl

/-- Claim C5 as amended: the filters handler acknowledges on every exit
path, and the search handler acknowledges on every exit path of its
`try` scope — in particular whenever the selection extraction of lines
191-192 succeeded (a dict-valued `"filters"` key), even if filtering or
`complete` then raises. -/
theorem ack_on_every_exit_of_try_scope :
    (∀ completeRaises : Bool, (handle_filters_step_event completeRaises).acked = true)
    ∧ ∀ (inputs : PyDict) (d : PyDict) (completeRaises : Bool),
        inputs.lookup "filters" = some (JVal.dict d) →
        (handle_search_step_event inputs completeRaises).acked = true := by
  constructor
  · intro completeRaises
    cases completeRaises <;> rfl
  · intro inputs d completeRaises h
    simp only [handle_search_step_event, h, pyGet]
    cases searchTryBody ((d.lookup "is_single").getD (JVal.bool false))
      ((d.lookup "bands").getD (JVal.list [])) completeRaises <;> rfl

/-- Witness for the amended Claim C5 at concrete inputs: an empty selection
dict with a raising `complete` still acknowledges, in both handlers. -/
theorem ack_on_every_exit_of_try_scope_witness :
    (handle_filters_step_event true).acked = true
    ∧ (handle_search_step_event [("filters", JVal.dict [])] true).acked = true :=
  ⟨ack_on_every_exit_of_try_scope.1 true,
   ack_on_every_exit_of_try_scope.2 [("filters", JVal.dict [])] [] true rfl⟩

/-- Claim C6, counterexample: the selection `{"bands": 1}` — a truthy value
that supports no membership test — makes the search operation raise a
`TypeError` inside the bands comprehension, refuting "no combination of
selection values makes the search operation raise an error". -/
theorem truthy_noncontainer_bands_raises :
    handle_search_step_event [("filters", JVal.dict [("bands", JVal.num 1)])] false =
      { acked := true, completed := none, exn := some PyErr.typeError } := rfl

/-- Claim C6 as amended: missing selection keys are recovered silently via
defaults (`is_single` false, `bands` empty) and unknown selection keys are
ignored, so any selection dict without those two keys completes with the
whole projected catalog; and no selection whose `bands` value is a list
(the type the filter UI sends) raises, whatever its elements and whatever
the `is_single` value — only a truthy non-container `bands` value raises. -/
theorem selection_defaults_and_unknown_keys :
    (∀ d : PyDict, d.lookup "is_single" = none → d.lookup "bands" = none →
      handle_search_step_event [("filters", JVal.dict d)] false =
        { acked := true, completed := some (SONGS.map projectSong), exn := none })
    ∧ ∀ (sv : JVal) (bl : List JVal),
        (handle_search_step_event
            [("filters", JVal.dict [("is_single", sv), ("bands", JVal.list bl)])]
            false).exn = none
        ∧ (handle_search_step_event
            [("filters", JVal.dict [("is_single", sv), ("bands", JVal.list bl)])]
            false).acked = true := by
  constructor
  · intro d h1 h2
    rw [handle_search_on_dict, h1, h2]
    rfl
  · intro sv bl
    have hl1 : (List.lookup "is_single"
        ([("is_single", sv), ("bands", JVal.list bl)] : PyDict)).getD (JVal.bool false) = sv := rfl
    have hl2 : (List.lookup "bands"
        ([("is_single", sv), ("bands", JVal.list bl)] : PyDict)).getD (JVal.list [])
        = JVal.list bl := rfl
    rw [handle_search_on_dict, hl1, hl2, searchTryBody_list_ok]
    exact ⟨rfl, rfl⟩

/-- Witness for the amended Claim C6 at concrete inputs: a selection with
only an unknown `genre` key completes with all ten projected songs, and a
selection with `is_single: null` and a junk-element band list raises
nothing. -/
theorem selection_defaults_and_unknown_keys_witness :
    handle_search_step_event [("filters", JVal.dict [("genre", JVal.str "rock")])] false =
      { acked := true, completed := some (SONGS.map projectSong), exn := none }
    ∧ (handle_search_step_event
        [("filters", JVal.dict
          [("is_single", JVal.null), ("bands", JVal.list [JVal.num 7])])] false).exn = none :=
  ⟨selection_defaults_and_unknown_keys.1 [("genre", JVal.str "rock")] rfl rfl,
   (selection_defaults_and_unknown_keys.2 JVal.null [JVal.num 7]).1⟩

/-- Claim C2 evaluated on the code (the claim matches the code's own
`SearchResult` TypedDict but not the dict literal of line 204): no
projected record carries an `id` or an `entity_reference` key — the source
id travels only inside the `external_ref` key — while `band` and
`is_single` are indeed never echoed. -/
theorem projected_result_omits_id_and_entity_reference :
    ∀ song : Song,
      "id" ∉ (projectSong song).map Prod.fst
      ∧ "entity_reference" ∉ (projectSong song).map Prod.fst
      ∧ "band" ∉ (projectSong song).map Prod.fst
      ∧ "is_single" ∉ (projectSong song).map Prod.fst
      ∧ ("external_ref", JVal.dict [("id", JVal.str song.id)]) ∈ projectSong song := by
  intro song
  cases h : song.content <;> simp [projectSong, h]

/-- Claim C7: the projection's `content` key is present and equal to the
source entity's content exactly when the entity carries one, and absent
(not null, not empty) exactly when it does not. -/
theorem content_key_present_iff_source_content :
    ∀ song : Song,
      (∀ c : String, song.content = some c ↔ ("content", JVal.str c) ∈ projectSong song)
      ∧ (song.content = none ↔ "content" ∉ (projectSong song).map Prod.fst) := by
  intro song
  cases h : song.content with
  | none => simp [projectSong, h]
  | some v =>
    simp [projectSong, h]
    exact fun c => eq_comm

/-- Claim C3, counterexample: the seeded catalog has six distinct bands,
so the `bands` option set of `listFilters` has size 6, not the claimed 9. -/
theorem seed_distinct_band_count_is_six_not_nine :
    ((listFilters SONGS).head?.bind SearchFilter.options).map List.length = some 6
    ∧ ((listFilters SONGS).head?.bind SearchFilter.options).map List.length ≠ some 9 :=
  ⟨rfl, by decide⟩

/-- Claim C3 as amended: the `bands` definition's option set always has one
option per distinct band value of the catalog — its size is the number of
distinct band values — and for the seeded catalog that size is 6. -/
theorem bands_options_size_eq_distinct_band_count :
    (∀ catalog : List Song,
      (listFilters catalog).head?.bind SearchFilter.options = some (bandsOptions catalog)
      ∧ (bandsOptions catalog).length = (catalog.map Song.band).toFinset.card)
    ∧ (bandsOptions SONGS).length = 6 := by
  constructor
  · intro catalog
    refine ⟨rfl, ?_⟩
    rw [List.card_toFinset]
    simp [bandsOptions, unique_bands]
  · rfl

/-- Claim C4: `listFilters` always returns exactly two definitions in a
fixed order — the `bands` MultiSelect whose options have `name = value`
ranging over the distinct catalog bands, then the `is_single` Toggle with
no option set — and on the empty catalog the `bands` definition still
appears, with an empty option set. (`listFilters` is a total function: no
input makes it error.) -/
theorem listFilters_shape_and_empty_catalog :
    (∀ catalog : List Song,
      (listFilters catalog).length = 2
      ∧ (listFilters catalog).map SearchFilter.name = ["bands", "is_single"]
      ∧ (listFilters catalog).map SearchFilter.type
          = [FilterType.MULTI_SELECT.value, FilterType.TOGGLE.value]
      ∧ (listFilters catalog).map SearchFilter.options = [some (bandsOptions catalog), none]
      ∧ (bandsOptions catalog).map FilterOptions.name = unique_bands catalog
      ∧ (bandsOptions catalog).map FilterOptions.value = unique_bands catalog
      ∧ (unique_bands catalog).Nodup)
    ∧ listFilters [] =
        [{ name := "bands", display_name := "Bands",
           type := FilterType.MULTI_SELECT.value, options := some [] },
         { name := "is_single", display_name := "Singles Only",
           type := FilterType.TOGGLE.value, options := none }] := by
  constructor
  · intro catalog
    refine ⟨rfl, rfl, rfl, rfl, ?_, ?_, ?_⟩
    · rw [bandsOptions, List.map_map]
      exact List.map_id _
    · rw [bandsOptions, List.map_map]
      exact List.map_id _
    · exact (catalog.map Song.band).nodup_dedup
  · rfl

/-- Claim C8: the entity-details payload is built without consulting the
catalog or the referenced entity id — two inbound events agreeing on
`trigger_id` and link url produce identical payloads whatever their
`external_ref` (and `user`) fields. -/
theorem flexpane_payload_ignores_external_ref :
    ∀ e1 e2 : EntityDetailsRequestedEvent,
      e1.trigger_id = e2.trigger_id → e1.link.url = e2.link.url →
      flexpane_payload e1 = flexpane_payload e2 := by
  intro e1 e2 ht hu
  simp [flexpane_payload, ht, hu]

/-- Witness for Claim C8 at concrete events that differ in the
`external_ref` id (and type, and user) but share trigger and url. -/
theorem flexpane_payload_ignores_external_ref_witness :
    flexpane_payload
        { user := "U01", external_ref := { id := "queen-001", type := none },
          trigger_id := "Tr100", link := { url := "https://example.com/queen/bohemian-rhapsody", domain := "example.com" } }
      = flexpane_payload
        { user := "U02", external_ref := { id := "acdc-001", type := some "item" },
          trigger_id := "Tr100", link := { url := "https://example.com/queen/bohemian-rhapsody", domain := "example.com" } } :=
  flexpane_payload_ignores_external_ref _ _ rfl rfl

/-- Claim C9: a failing outbound `entity.presentDetails` call is caught and
logged inside the event handler and never propagated to the event source. -/
theorem presentDetails_failure_caught_and_logged :
    ∀ (event : EntityDetailsRequestedEvent) (apiResult : Except String Unit),
      (handle_flexpane_event event apiResult).raised = none
      ∧ ∀ e : String, apiResult = .error e →
          (handle_flexpane_event event apiResult).logged_error
            = some ("Error calling entity.presentDetails: " ++ e) := by
  intro event apiResult
  constructor
  · cases apiResult <;> rfl
  · intro e he
    subst he
    rfl

/-- Witness for Claim C9 at a concrete event and a concrete failure of the
outbound call. -/
theorem presentDetails_failure_caught_and_logged_witness :
    (handle_flexpane_event
        { user := "U01", external_ref := { id := "pf-001", type := none },
          trigger_id := "Tr1", link := { url := "https://example.com/pinkfloyd/time", domain := "example.com" } }
        (.error "socket closed")).raised = none
    ∧ (handle_flexpane_event
        { user := "U01", external_ref := { id := "pf-001", type := none },
          trigger_id := "Tr1", link := { url := "https://example.com/pinkfloyd/time", domain := "example.com" } }
        (.error "socket closed")).logged_error
        = some ("Error calling entity.presentDetails: " ++ "socket closed") :=
  ⟨(presentDetails_failure_caught_and_logged _ _).1,
   (presentDetails_failure_caught_and_logged _ _).2 "socket closed" rfl⟩

/-- Witness for Claim C10 at concrete selections: `["Queen"]` against
`["Queen", "AC/DC"]` with the singles toggle off. -/
theorem bands_filter_monotone_witness :
    List.Sublist (searchSongs false ["Queen"] SONGS)
        (searchSongs false ["Queen", "AC/DC"] SONGS)
    ∧ ∀ song ∈ searchSongs false ["Queen"] SONGS,
        song ∈ searchSongs false ["Queen", "AC/DC"] SONGS :=
  bands_filter_monotone false ["Queen"] ["Queen", "AC/DC"]
    (by decide) (by decide)
    (by intro a ha; rw [List.mem_singleton] at ha; subst ha; exact List.mem_cons_self _ _)
